import Mathlib

/-!
Verification of the A2UI React renderer core: the JSON-Pointer data binding
(`ComponentMapper.tsx`), the component-tree reconciliation and session state
handlers (`A2UIRenderer.tsx`).  JavaScript values flowing through the renderer
are embedded as a JSON-like inductive type; JavaScript `undefined` is embedded
as `Option.none` at the positions where it can occur.
-/

namespace A2UI

/-- JSON-like runtime values: the payloads stored in component properties and
in the data model. -/
inductive Json where
  | null : Json
  | bool : Bool → Json
  | num : Int → Json
  | str : String → Json
  | arr : List Json → Json
  | obj : List (String × Json) → Json

/-- JavaScript truthiness of an embedded value (`Boolean(v)`). -/
def jsTruthy : Json → Bool
  | .null => false
  | .bool b => b
  | .num n => n != 0
  | .str s => s != ""
  | .arr _ => true
  | .obj _ => true

mutual

/-- JavaScript `String(v)` conversion of an embedded value. -/
def jsString : Json → String
  | .str s => s
  | .num n => toString n
  | .bool b => cond b "true" "false"
  | .null => "null"
  | .obj _ => "[object Object]"
  | .arr xs => jsStringList xs

/-- JavaScript array-to-string conversion: elements joined with a comma,
`null` elements rendered as the empty string. -/
def jsStringList : List Json → String
  | [] => ""
  | [Json.null] => ""
  | [x] => jsString x
  | Json.null :: xs => "," ++ jsStringList xs
  | x :: xs => jsString x ++ "," ++ jsStringList xs

end

/-- JavaScript `String(v || "")`, the display conversion used by the text and
heading branches; `none` is JavaScript `undefined`. -/
def jsDisplay : Option Json → String
  | none => ""
  | some v => if jsTruthy v then jsString v else ""

/-- Splits a character list at every `/`; the result always has one more
entry than the number of slashes. -/
def splitOnSlash : List Char → List (List Char)
  | [] => [[]]
  | c :: rest =>
      let r := splitOnSlash rest
      if c = '/' then [] :: r
      else
        match r with
        | seg :: segs => (c :: seg) :: segs
        | [] => [[c]]

/-- Parses a pointer segment as a zero-based decimal index. -/
def parseIndex (cs : List Char) : Option Nat :=
  if cs = [] then none
  else if cs.all (fun c => c.isDigit) then
    some (cs.foldl (fun n c => n * 10 + (c.toNat - Char.toNat '0')) 0)
  else none

/-- One resolution step of a pointer segment: mapping keys are matched on
objects, zero-based numeric indices on sequences; anything else is undefined. -/
def segStep (j : Json) (seg : List Char) : Option Json :=
  match j with
  | .obj kvs => kvs.lookup (String.mk seg)
  | .arr xs => (parseIndex seg).bind fun i => xs[i]?
  | _ => none

namespace JSONPointer

/-- Modelled from the spec: `JSONPointer.resolve` lives in the external core
package (`ai-kit-a2ui-core/json-pointer`), whose sources are not part of this
repository.  Spec section 4.1: the pointer is a slash-separated sequence of
segments; each segment is matched against mapping keys, or against a
zero-based numeric index when the current node is a sequence; the result is
undefined when any segment is missing, the model is not a container at that
step, or the pointer is malformed (it must begin with a slash); the root
pointer `/` addresses the model itself. -/
def resolve (model : Json) (pointer : String) : Option Json :=
  if pointer = "/" then some model
  else
    match splitOnSlash pointer.toList with
    | [] :: segs => segs.foldlM (fun j seg => segStep j seg) model
    | _ => none

end JSONPointer

/-- JavaScript `s.startsWith("/")`: the first character is a slash. -/
def jsStartsWithSlash (s : String) : Bool :=
  match s.toList with
  | c :: _ => c = '/'
  | [] => false

/-- `resolveValue` from `ComponentMapper.tsx` (lines 48 to 59): non-strings
pass through unchanged; a string starting with `/` is resolved as a JSON
Pointer against the data model, falling back to the literal string when
resolution is undefined; any other string passes through unchanged. -/
def resolveValue (dataModel : Json) (value : Json) : Json :=
  match value with
  | .str s =>
      if jsStartsWithSlash s then
        match JSONPointer.resolve dataModel s with
        | some r => r
        | none => .str s
      else .str s
  | v => v

/-- `resolveValue` applied to a possibly-undefined property read
(`component.properties?.[k]`): `undefined` is not a string, so it passes
through unchanged. -/
def resolveValueOpt (dataModel : Json) (value : Option Json) : Option Json :=
  value.map (resolveValue dataModel)

/-- An A2UI component node: `id`, discriminating `type` string, a property
mapping and an ordered list of children (absent properties or children are
embedded as the empty list). -/
inductive Component where
  | mk (id : String) (type : String) (properties : List (String × Json))
      (children : List Component)

/-- The `id` field of a component. -/
def Component.id : Component → String
  | .mk i _ _ _ => i

/-- The `type` field of a component. -/
def Component.type : Component → String
  | .mk _ t _ _ => t

/-- The `properties` field of a component. -/
def Component.properties : Component → List (String × Json)
  | .mk _ _ p _ => p

/-- The `children` field of a component. -/
def Component.children : Component → List Component
  | .mk _ _ _ c => c

/-- The three reconciliation operations of an `updateComponents` message. -/
inductive Operation where
  | add
  | update
  | remove
deriving DecidableEq

/-- One entry of the `updates` array of an `updateComponents` message. -/
structure ComponentUpdate where
  operation : Operation
  id : String
  component : Option Component

/-- One iteration of the `updateComponents` handler loop
(`A2UIRenderer.tsx` lines 81 to 90): `findIndex` on the accumulated root
list, then push on `add`, replace at the found index on `update`, splice at
the found index on `remove`; every other combination leaves the list
untouched. -/
def applyUpdate (updated : List Component) (u : ComponentUpdate) : List Component :=
  let index := updated.findIdx? fun c => c.id == u.id
  match u.operation with
  | .add =>
      match u.component with
      | some comp => updated ++ [comp]
      | none => updated
  | .update =>
      match u.component, index with
      | some comp, some i => updated.set i comp
      | _, _ => updated
  | .remove =>
      match index with
      | some i => updated.eraseIdx i
      | none => updated

/-- The `updateComponents` handler (`A2UIRenderer.tsx` lines 79 to 92):
starting from a copy of the previous root list, the updates are applied
sequentially in array order. -/
def updateComponents (prev : List Component) (updates : List ComponentUpdate) :
    List Component :=
  updates.foldl applyUpdate prev

/-- The four render states of `A2UIRenderer` (`RenderState` in
`A2UIRenderer.tsx` line 30). -/
inductive RenderState where
  | disconnected
  | connecting
  | connected
  | error
deriving DecidableEq

/-- Payload of a `createSurface` message: the new root components and an
optional data model (`none` embeds an absent `dataModel` field). -/
structure CreateSurfaceMsg where
  components : List Component
  dataModel : Option Json

/-- The transport events the renderer subscribes to
(`A2UIRenderer.tsx` lines 49 to 94). -/
inductive TransportEvent where
  | statusChange (status : String)
  | errorEvt (err : String)
  | createSurface (msg : CreateSurfaceMsg)
  | updateComponentsMsg (updates : List ComponentUpdate)

/-- The mutable renderer state: the session render state, the component
tree, the data model, and the recorded error. -/
structure RendererState where
  state : RenderState
  components : List Component
  dataModel : Json
  err : Option String

/-- The event handlers of `A2UIRenderer.tsx` (lines 49 to 94) as one step
function on the renderer state:
`statusChange` maps the four transport statuses onto the render states and
ignores any other status string; the `error` event records the error and
forces the error state; `createSurface` replaces the component tree and
replaces the data model with `message.dataModel || {}`; `updateComponents`
folds the update list over the component tree. -/
def step (st : RendererState) (e : TransportEvent) : RendererState :=
  match e with
  | .statusChange status =>
      if status = "connected" then
        ⟨.connected, st.components, st.dataModel, st.err⟩
      else if status = "connecting" then
        ⟨.connecting, st.components, st.dataModel, st.err⟩
      else if status = "disconnected" then
        ⟨.disconnected, st.components, st.dataModel, st.err⟩
      else if status = "error" then
        ⟨.error, st.components, st.dataModel, st.err⟩
      else st
  | .errorEvt e => ⟨.error, st.components, st.dataModel, some e⟩
  | .createSurface msg =>
      ⟨st.state, msg.components,
        match msg.dataModel with
        | some d => if jsTruthy d then d else Json.obj []
        | none => Json.obj [],
        st.err⟩
  | .updateComponentsMsg updates =>
      ⟨st.state, updateComponents st.components updates, st.dataModel, st.err⟩

/-- The text rendered by the `text` branch of `ComponentMapper.tsx`
(lines 80 to 83): `String(resolveValue(properties?.["value"]) || "")`. -/
def renderTextBranch (dataModel : Json) (props : List (String × Json)) : String :=
  jsDisplay (resolveValueOpt dataModel (props.lookup "value"))

/-- The text rendered by the `heading` branch of `ComponentMapper.tsx`
(lines 86 to 92): the same display conversion of the resolved `value`. -/
def renderHeadingText (dataModel : Json) (props : List (String × Json)) : String :=
  jsDisplay (resolveValueOpt dataModel (props.lookup "value"))

/-- JavaScript test `v.length === 0` as used by the list branch guard:
true exactly for the empty string and the empty array (`.length` is
`undefined` on every other embedded value, and `undefined === 0` is false). -/
def jsLengthIsZero : Json → Bool
  | .str s => s == ""
  | .arr xs => xs.isEmpty
  | _ => false

/-- The effective `items` value of the list branch (`ComponentMapper.tsx`
lines 203 to 208): the raw property when it is already an array, otherwise
`resolveValue` of it; an absent property stays `undefined`. -/
def effectiveItems (dataModel : Json) (props : List (String × Json)) : Option Json :=
  match props.lookup "items" with
  | some (Json.arr xs) => some (Json.arr xs)
  | some v => some (resolveValue dataModel v)
  | none => none

/-- Outcome of the list branch. -/
inductive ListRender where
  | emptyDiv
  | items (xs : List Json)

/-- The list branch of `ComponentMapper.tsx` (lines 202 to 257): when the
effective items value is falsy or has `length === 0` the branch renders an
empty placeholder div; otherwise it calls `items.map`, which raises an
uncaught `TypeError` whenever the value is not an array. -/
def renderList (dataModel : Json) (props : List (String × Json)) :
    Except String ListRender :=
  match effectiveItems dataModel props with
  | none => .ok .emptyDiv
  | some v =>
      if !(jsTruthy v) || jsLengthIsZero v then .ok .emptyDiv
      else
        match v with
        | .arr xs => .ok (.items xs)
        | _ => .error "TypeError: items.map is not a function"

/-- The effective `options` value of the choicepicker branch
(`ComponentMapper.tsx` lines 159 to 162), shaped exactly like
`effectiveItems`. -/
def effectiveOptions (dataModel : Json) (props : List (String × Json)) : Option Json :=
  match props.lookup "options" with
  | some (Json.arr xs) => some (Json.arr xs)
  | some v => some (resolveValue dataModel v)
  | none => none

/-- The option list mounted by the choicepicker branch
(`ComponentMapper.tsx` lines 189 to 195): `options?.map(...)` short-circuits
on `undefined` and `null`, maps over arrays, and raises an uncaught
`TypeError` on every other value. -/
def renderOptions (dataModel : Json) (props : List (String × Json)) :
    Except String (Option (List Json)) :=
  match effectiveOptions dataModel props with
  | none => .ok none
  | some Json.null => .ok none
  | some (Json.arr xs) => .ok (some xs)
  | some _ => .error "TypeError: options.map is not a function"

/-- One entry of the literal `tabs` property array, as asserted by the cast
in `ComponentMapper.tsx` lines 265 to 267. -/
structure TabDef where
  value : String
  label : String
  content : Option String
deriving DecidableEq

/-- What the tabs branch mounts: simple mode over the literal `tabs` array,
children mode over `tab-trigger` and `tab-content` children, or the literal
`[Empty tabs]` fallback; `selected` is the `defaultValue` handed to the tabs
widget. -/
inductive TabsRender where
  | simple (selected : String) (tabs : List TabDef)
  | childMode (selected : String) (triggers : List Component)
      (contents : List Component)
  | emptyFallback

/-- The tabs branch of `ComponentMapper.tsx` (lines 260 to 348).  The
resolved `defaultValue` is display-converted; with a nonempty literal `tabs`
array the widget receives `defaultValue || tabs[0]?.value || ""`; with
children instead, the children of type `tab-trigger` and `tab-content` are
partitioned and the widget receives the display-converted `defaultValue`
with no first-tab fallback; otherwise the empty fallback is rendered. -/
def renderTabs (dataModel : Json) (props : List (String × Json))
    (tabs : Option (List TabDef)) (children : List Component) : TabsRender :=
  let defaultValue := jsDisplay (resolveValueOpt dataModel (props.lookup "defaultValue"))
  match tabs with
  | some ts =>
      if ts.length > 0 then
        .simple
          (if defaultValue != "" then defaultValue
           else
             match ts.head? with
             | some t => if t.value != "" then t.value else ""
             | none => "")
          ts
      else
        if children.length > 0 then
          .childMode defaultValue
            (children.filter fun c => c.type == "tab-trigger")
            (children.filter fun c => c.type == "tab-content")
        else .emptyFallback
  | none =>
      if children.length > 0 then
        .childMode defaultValue
          (children.filter fun c => c.type == "tab-trigger")
          (children.filter fun c => c.type == "tab-content")
      else .emptyFallback

/-- The `value` attribute a `tab-content` child passes to the tabs widget
(`ComponentMapper.tsx` line 330): `String(properties?.["value"] || "")`. -/
def panelValue (c : Component) : String :=
  jsDisplay (c.properties.lookup "value")

/-- The initially selected tab value of a mounted tabs node. -/
def initialSelected : TabsRender → Option String
  | .simple sel _ => some sel
  | .childMode sel _ _ => some sel
  | .emptyFallback => none

/-- Modelled from the spec: the tabs widget itself (`./ui/tabs`) is outside
this repository; per spec sections 4.3 and 8, a trigger and its panel are
associated by equal `value`, the panel whose value equals the currently
selected value is shown, and a trigger with no matching content renders an
empty panel.  `visiblePanels` is the list of panel values currently shown. -/
def visiblePanels : TabsRender → List String
  | .simple sel ts => (ts.filter fun t => t.value == sel).map fun t => t.value
  | .childMode sel _ contents =>
      (contents.filter fun c => panelValue c == sel).map panelValue
  | .emptyFallback => []

/-! Unfolding lemmas for the reconciliation loop. -/

theorem updateComponents_nil (t : List Component) : updateComponents t [] = t := rfl

theorem updateComponents_cons (t : List Component) (u : ComponentUpdate)
    (us : List ComponentUpdate) :
    updateComponents t (u :: us) = updateComponents (applyUpdate t u) us := rfl

theorem applyUpdate_add (t : List Component) (uid : String) (c : Component) :
    applyUpdate t ⟨.add, uid, some c⟩ = t ++ [c] := rfl

theorem applyUpdate_update_eq (t : List Component) (uid : String) (c : Component) :
    applyUpdate t ⟨.update, uid, some c⟩ =
      match t.findIdx? (fun d => d.id == uid) with
      | some i => t.set i c
      | none => t := by
  cases h : t.findIdx? (fun d => d.id == uid) <;> simp [applyUpdate, h]

theorem applyUpdate_remove_eq (t : List Component) (uid : String) :
    applyUpdate t ⟨.remove, uid, none⟩ =
      match t.findIdx? (fun d => d.id == uid) with
      | some i => t.eraseIdx i
      | none => t := by
  cases h : t.findIdx? (fun d => d.id == uid) <;> simp [applyUpdate, h]

/-- C1: for every data model and property value, `resolveValue` returns
non-strings unchanged, returns strings not starting with `/` unchanged,
returns the value at a resolvable pointer path, and returns the original
string unchanged when resolution is undefined — a miss is never an error. -/
theorem C1_resolveValue (M v : Json) :
    ((∀ s, v ≠ Json.str s) → resolveValue M v = v) ∧
    (∀ s, v = Json.str s → jsStartsWithSlash s = false → resolveValue M v = v) ∧
    (∀ s r, v = Json.str s → jsStartsWithSlash s = true →
       JSONPointer.resolve M s = some r → resolveValue M v = r) ∧
    (∀ s, v = Json.str s → jsStartsWithSlash s = true →
       JSONPointer.resolve M s = none → resolveValue M v = Json.str s) := by
  refine ⟨?_, ?_, ?_, ?_⟩
  · intro h
    cases v with
    | str s => exact absurd rfl (h s)
    | null => rfl
    | bool b => rfl
    | num n => rfl
    | arr xs => rfl
    | obj kvs => rfl
  · rintro s rfl hs
    simp [resolveValue, hs]
  · rintro s r rfl hs hr
    simp [resolveValue, hs, hr]
  · rintro s rfl hs hr
    simp [resolveValue, hs, hr]

/-- C1 witness: a present path resolves to the model value, a missing path
falls back to the literal string, and a number passes through unchanged. -/
theorem C1_resolveValue_witness :
    resolveValue (Json.obj [("user", Json.obj [("name", Json.str "John")])])
        (Json.str "/user/name") = Json.str "John" ∧
    resolveValue (Json.obj []) (Json.str "/missing/items")
        = Json.str "/missing/items" ∧
    resolveValue (Json.obj []) (Json.num 7) = Json.num 7 := by
  refine ⟨?_, ?_, ?_⟩
  · exact (C1_resolveValue _ _).2.2.1 "/user/name" (Json.str "John") rfl rfl rfl
  · exact (C1_resolveValue _ _).2.2.2 "/missing/items" rfl rfl rfl
  · exact (C1_resolveValue _ _).1 fun s h => Json.noConfusion h

/-- C3: a `createSurface` event replaces the component tree with the
components of the message and the data model with the dataModel of the
message, the empty object when the message carries none; the result does
not depend on the prior tree or model. -/
theorem C3_createSurface (st : RendererState) (msg : CreateSurfaceMsg) :
    (step st (.createSurface msg)).components = msg.components ∧
    (∀ d, msg.dataModel = some d → jsTruthy d = true →
       (step st (.createSurface msg)).dataModel = d) ∧
    (msg.dataModel = none →
       (step st (.createSurface msg)).dataModel = Json.obj []) ∧
    (∀ st2 : RendererState,
       (step st (.createSurface msg)).components
           = (step st2 (.createSurface msg)).components ∧
       (step st (.createSurface msg)).dataModel
           = (step st2 (.createSurface msg)).dataModel) := by
  refine ⟨rfl, ?_, ?_, fun st2 => ⟨rfl, rfl⟩⟩
  · intro d hd ht
    simp [step, hd, ht]
  · intro h
    simp [step, h]

/-- C3 witness: a message with a data model installs it, a message without
one installs the empty object. -/
theorem C3_createSurface_witness :
    (step ⟨RenderState.connected, [], Json.obj [], none⟩
        (.createSurface ⟨[], some (Json.obj [("k", Json.num 1)])⟩)).dataModel
      = Json.obj [("k", Json.num 1)] ∧
    (step ⟨RenderState.connected, [], Json.obj [("old", Json.num 2)], none⟩
        (.createSurface ⟨[], none⟩)).dataModel = Json.obj [] := by
  constructor
  · exact (C3_createSurface _ _).2.1 (Json.obj [("k", Json.num 1)]) rfl rfl
  · exact (C3_createSurface _ _).2.2.1 rfl

/-- C4: an `updateComponents` event changes only the component tree and
leaves the data model unchanged; `createSurface` is the only event that can
change the data model. -/
theorem C4_updateComponents_frame (st : RendererState) (us : List ComponentUpdate) :
    (step st (.updateComponentsMsg us)).dataModel = st.dataModel ∧
    (step st (.updateComponentsMsg us)).components
        = updateComponents st.components us ∧
    (∀ e : TransportEvent, (∀ msg, e ≠ .createSurface msg) →
       (step st e).dataModel = st.dataModel) := by
  refine ⟨rfl, rfl, ?_⟩
  intro e he
  cases e with
  | statusChange s =>
      simp only [step]
      split_ifs <;> rfl
  | errorEvt err => rfl
  | createSurface m => exact absurd rfl (he m)
  | updateComponentsMsg u => rfl

/-- C4 witness: a concrete update batch leaves a concrete model untouched,
and a status event does too. -/
theorem C4_updateComponents_frame_witness :
    (step ⟨RenderState.connected, [], Json.obj [("k", Json.num 1)], none⟩
        (.updateComponentsMsg [⟨.add, "x", some (.mk "x" "text" [] [])⟩])).dataModel
      = Json.obj [("k", Json.num 1)] ∧
    (step ⟨RenderState.connected, [], Json.obj [("k", Json.num 1)], none⟩
        (.statusChange "disconnected")).dataModel = Json.obj [("k", Json.num 1)] := by
  constructor
  · exact (C4_updateComponents_frame _ _).1
  · exact (C4_updateComponents_frame
      ⟨RenderState.connected, [], Json.obj [("k", Json.num 1)], none⟩ []).2.2
      (.statusChange "disconnected") fun msg h => TransportEvent.noConfusion h

/-- C8: an `update` whose id matches no root node leaves the tree unchanged,
and likewise a `remove`; an `update` whose id is found replaces the node in
place at the same position. -/
theorem C8_unknown_id_noop (t : List Component) (uid : String) (c : Component) :
    ((∀ d ∈ t, d.id ≠ uid) →
       updateComponents t [⟨.update, uid, some c⟩] = t ∧
       updateComponents t [⟨.remove, uid, none⟩] = t) ∧
    (∀ i, t.findIdx? (fun d => d.id == uid) = some i →
       updateComponents t [⟨.update, uid, some c⟩] = t.set i c) := by
  constructor
  · intro h
    have hnone : t.findIdx? (fun d => d.id == uid) = none := by
      rw [List.findIdx?_eq_none_iff]
      intro x hx
      simpa using h x hx
    constructor
    · rw [updateComponents_cons, applyUpdate_update_eq, hnone, updateComponents_nil]
    · rw [updateComponents_cons, applyUpdate_remove_eq, hnone, updateComponents_nil]
  · intro i hi
    rw [updateComponents_cons, applyUpdate_update_eq, hi, updateComponents_nil]

/-- C8 witness: on the concrete tree `[a]` an update and a remove aimed at
the absent id `missing` are no-ops, and an update aimed at `a` replaces the
node at position 0. -/
theorem C8_unknown_id_noop_witness :
    updateComponents [Component.mk "a" "text" [] []]
        [⟨.update, "missing", some (.mk "b" "text" [] [])⟩]
      = [Component.mk "a" "text" [] []] ∧
    updateComponents [Component.mk "a" "text" [] []] [⟨.remove, "missing", none⟩]
      = [Component.mk "a" "text" [] []] ∧
    updateComponents [Component.mk "a" "text" [] []]
        [⟨.update, "a", some (.mk "b" "text" [] [])⟩]
      = [Component.mk "b" "text" [] []] := by
  refine ⟨?_, ?_, ?_⟩
  · exact ((C8_unknown_id_noop _ "missing" _).1 (by decide)).1
  · exact ((C8_unknown_id_noop _ "missing" (.mk "b" "text" [] [])).1 (by decide)).2
  · exact (C8_unknown_id_noop [Component.mk "a" "text" [] []] "a"
      (.mk "b" "text" [] [])).2 0 rfl

/-- C9: an `add` update appends its component at the end of the root list
unconditionally, so adding an id that is already present yields at least two
root nodes with that id. -/
theorem C9_add_appends (t : List Component) (uid : String) (c : Component) :
    updateComponents t [⟨.add, uid, some c⟩] = t ++ [c] ∧
    (1 ≤ t.countP (fun d => d.id == c.id) →
       2 ≤ (updateComponents t [⟨.add, uid, some c⟩]).countP
             (fun d => d.id == c.id)) := by
  have h1 : updateComponents t [⟨.add, uid, some c⟩] = t ++ [c] := rfl
  refine ⟨h1, ?_⟩
  intro hc
  rw [h1, List.countP_append]
  have h2 : List.countP (fun d => d.id == c.id) [c] = 1 := by
    simp [List.countP_cons]
  omega

/-- C9 witness: adding a second node with id `x` to a tree already holding
id `x` leaves two root nodes with that id. -/
theorem C9_add_appends_witness :
    updateComponents [Component.mk "x" "text" [] []]
        [⟨.add, "x", some (.mk "x" "button" [] [])⟩]
      = [Component.mk "x" "text" [] [], Component.mk "x" "button" [] []] ∧
    2 ≤ (updateComponents [Component.mk "x" "text" [] []]
          [⟨.add, "x", some (.mk "x" "button" [] [])⟩]).countP
            (fun d => d.id == "x") := by
  constructor
  · exact (C9_add_appends _ _ _).1
  · exact (C9_add_appends [Component.mk "x" "text" [] []] "x"
      (.mk "x" "button" [] [])).2 (by decide)

/-- C2 counterexample: on the tree `[x]` that already contains a root node
with id `x`, applying `add` then `remove` does NOT yield a tree without id
`x` — the `remove` deletes the pre-existing first match and the appended
node survives, so the result is exactly the added node. -/
theorem C2_counterexample :
    updateComponents [Component.mk "x" "text" [] []]
        [⟨.add, "x", some (.mk "x" "button" [] [])⟩, ⟨.remove, "x", none⟩]
      = [Component.mk "x" "button" [] []] ∧
    (updateComponents [Component.mk "x" "text" [] []]
        [⟨.add, "x", some (.mk "x" "button" [] [])⟩, ⟨.remove, "x", none⟩]).any
        (fun d => d.id == "x") = true := ⟨rfl, rfl⟩

/-- C2 amended: updates apply sequentially in array order against an
accumulating copy.  `remove` then `add` of id `x` always leaves the added
node present.  `add` then `remove` of id `x` yields a tree without id `x`
only when the starting tree contains no root node with id `x`; on a tree
that does contain id `x`, the `remove` deletes the first pre-existing match
and the added node remains in the result. -/
theorem C2_update_ordering (t : List Component) (c : Component) :
    (c ∈ updateComponents t
        [⟨.remove, "x", none⟩, ⟨.add, "x", some c⟩]) ∧
    ((∀ d ∈ t, d.id ≠ "x") → c.id = "x" →
       updateComponents t [⟨.add, "x", some c⟩, ⟨.remove, "x", none⟩] = t) ∧
    ((∃ d ∈ t, d.id = "x") →
       c ∈ updateComponents t [⟨.add, "x", some c⟩, ⟨.remove, "x", none⟩]) := by
  refine ⟨?_, ?_, ?_⟩
  · have h : updateComponents t [⟨.remove, "x", none⟩, ⟨.add, "x", some c⟩]
        = applyUpdate t ⟨.remove, "x", none⟩ ++ [c] := rfl
    rw [h]
    exact List.mem_append_right _ (List.mem_singleton.mpr rfl)
  · intro h hc
    have hstep : updateComponents t [⟨.add, "x", some c⟩, ⟨.remove, "x", none⟩]
        = applyUpdate (t ++ [c]) ⟨.remove, "x", none⟩ := rfl
    have hnone : t.findIdx? (fun d => d.id == "x") = none := by
      rw [List.findIdx?_eq_none_iff]
      intro x hx
      simpa using h x hx
    have hone : ([c].findIdx? fun d => d.id == "x") = some 0 := by
      simp [List.findIdx?_cons, hc]
    have hidx : ((t ++ [c]).findIdx? fun d => d.id == "x") = some t.length := by
      rw [List.findIdx?_append, hnone, hone]
      simp
    rw [hstep, applyUpdate_remove_eq, hidx]
    show (t ++ [c]).eraseIdx t.length = t
    rw [List.eraseIdx_append_of_length_le (Nat.le_refl t.length)]
    simp
  · intro hex
    have hstep : updateComponents t [⟨.add, "x", some c⟩, ⟨.remove, "x", none⟩]
        = applyUpdate (t ++ [c]) ⟨.remove, "x", none⟩ := rfl
    have hex2 : ∃ d, d ∈ t ∧ (fun d : Component => d.id == "x") d = true := by
      obtain ⟨d, hd, hdid⟩ := hex
      exact ⟨d, hd, by simpa using hdid⟩
    have hsome : t.findIdx? (fun d => d.id == "x")
        = some (t.findIdx fun d => d.id == "x") :=
      List.findIdx?_eq_some_of_exists hex2
    have hlt : (t.findIdx fun d => d.id == "x") < t.length :=
      List.findIdx_lt_length_of_exists hex2
    have hidx : ((t ++ [c]).findIdx? fun d => d.id == "x")
        = some (t.findIdx fun d => d.id == "x") := by
      rw [List.findIdx?_append, hsome]
      rfl
    rw [hstep, applyUpdate_remove_eq, hidx]
    show c ∈ (t ++ [c]).eraseIdx (t.findIdx fun d => d.id == "x")
    rw [List.eraseIdx_append_of_lt_length hlt]
    exact List.mem_append_right _ (List.mem_singleton.mpr rfl)

/-- C2 witness: on the concrete tree `[x-text]`, `remove` then `add` leaves
the added button node present; `add` then `remove` also leaves it present
because the tree already contained id `x`; and on the tree `[y]` without id
`x`, `add` then `remove` restores the tree unchanged. -/
theorem C2_update_ordering_witness :
    (Component.mk "x" "button" [] [] ∈
       updateComponents [Component.mk "x" "text" [] []]
         [⟨.remove, "x", none⟩, ⟨.add, "x", some (.mk "x" "button" [] [])⟩]) ∧
    (Component.mk "x" "button" [] [] ∈
       updateComponents [Component.mk "x" "text" [] []]
         [⟨.add, "x", some (.mk "x" "button" [] [])⟩, ⟨.remove, "x", none⟩]) ∧
    updateComponents [Component.mk "y" "text" [] []]
        [⟨.add, "x", some (.mk "x" "button" [] [])⟩, ⟨.remove, "x", none⟩]
      = [Component.mk "y" "text" [] []] := by
  refine ⟨?_, ?_, ?_⟩
  · exact (C2_update_ordering _ _).1
  · exact (C2_update_ordering [Component.mk "x" "text" [] []]
      (.mk "x" "button" [] [])).2.2 ⟨.mk "x" "text" [] [], by simp, rfl⟩
  · exact (C2_update_ordering [Component.mk "y" "text" [] []]
      (.mk "x" "button" [] [])).2.1 (by decide) rfl

/-- C7 counterexample: from the `connected` state, the transport event
`statusChange("connecting")` transitions the machine back into `connecting`,
so `connecting` IS re-entered after a later state within the same
instance. -/
theorem C7_counterexample :
    (step ⟨RenderState.connected, [], Json.obj [], none⟩
        (.statusChange "connecting")).state = RenderState.connecting := rfl

theorem step_statusChange_state (st : RendererState) (s : String) :
    (step st (.statusChange s)).state =
      if s = "connected" then RenderState.connected
      else if s = "connecting" then RenderState.connecting
      else if s = "disconnected" then RenderState.disconnected
      else if s = "error" then RenderState.error
      else st.state := by
  simp only [step]
  split_ifs <;> rfl

/-- C7 amended: the `statusChange` handler maps transport statuses onto
render states 1:1, so the event `statusChange("connecting")` does re-enter
`connecting` from every state; it is, however, the only transport event that
can do so: from any state other than `connecting`, an event lands in
`connecting` precisely when it is `statusChange("connecting")`. -/
theorem C7_statusChange_connecting (st : RendererState) (e : TransportEvent)
    (h : st.state ≠ RenderState.connecting) :
    (step st e).state = RenderState.connecting
      ↔ e = .statusChange "connecting" := by
  cases e with
  | statusChange s =>
      constructor
      · intro hc
        rw [step_statusChange_state] at hc
        split_ifs at hc with h1 h2 h3 h4
        · rw [h2]
        · exact absurd hc h
      · rintro he
        injection he with hs
        rw [step_statusChange_state, hs]
        rfl
  | errorEvt err =>
      constructor
      · intro hc
        exact RenderState.noConfusion hc
      · intro he
        exact TransportEvent.noConfusion he
  | createSurface m =>
      constructor
      · intro hc
        exact absurd hc h
      · intro he
        exact TransportEvent.noConfusion he
  | updateComponentsMsg u =>
      constructor
      · intro hc
        exact absurd hc h
      · intro he
        exact TransportEvent.noConfusion he

/-- C7 witness: from `disconnected`, the event `statusChange("connecting")`
lands in `connecting`, and the event `statusChange("error")` does not. -/
theorem C7_statusChange_connecting_witness :
    (step ⟨RenderState.disconnected, [], Json.obj [], none⟩
        (.statusChange "connecting")).state = RenderState.connecting ∧
    ¬ (step ⟨RenderState.disconnected, [], Json.obj [], none⟩
        (.statusChange "error")).state = RenderState.connecting := by
  constructor
  · exact (C7_statusChange_connecting ⟨RenderState.disconnected, [], Json.obj [], none⟩
      (.statusChange "connecting") (by decide)).mpr rfl
  · intro hc
    have := (C7_statusChange_connecting ⟨RenderState.disconnected, [], Json.obj [], none⟩
      (.statusChange "error") (by decide)).mp hc
    injection this with hs
    exact absurd hs (by decide)

/-- C5: a `list` whose `items` property is a pointer string that does not
resolve in the model falls back to the literal string, which passes the
emptiness guard and makes `items.map` raise an uncaught TypeError out of the
render path; the `choicepicker` `options` property behaves the same way. -/
theorem C5_pointer_miss_throws :
    renderList (Json.obj []) [("items", Json.str "/missing/items")]
      = .error "TypeError: items.map is not a function" ∧
    renderOptions (Json.obj []) [("options", Json.str "/missing/options")]
      = .error "TypeError: options.map is not a function" ∧
    resolveValue (Json.obj []) (Json.str "/missing/items")
      = Json.str "/missing/items" := ⟨rfl, rfl, rfl⟩

/-- C10: the `text` and `heading` branches render the empty string whenever
the `value` property is absent or its resolved value is falsy — including
the number 0, the boolean false, and the empty string — so a value bound to
0 renders as the empty string rather than as the digit 0. -/
theorem C10_falsy_renders_empty (M : Json) (props : List (String × Json)) :
    (props.lookup "value" = none →
       renderTextBranch M props = "" ∧ renderHeadingText M props = "") ∧
    (∀ v, props.lookup "value" = some v → jsTruthy (resolveValue M v) = false →
       renderTextBranch M props = "" ∧ renderHeadingText M props = "") ∧
    (∀ v, props.lookup "value" = some v → resolveValue M v = Json.num 0 →
       renderTextBranch M props = "" ∧ renderHeadingText M props = "") := by
  refine ⟨?_, ?_, ?_⟩
  · intro h
    constructor <;>
      simp [renderTextBranch, renderHeadingText, resolveValueOpt, jsDisplay, h]
  · intro v hv hf
    constructor <;>
      simp [renderTextBranch, renderHeadingText, resolveValueOpt, jsDisplay, hv, hf]
  · intro v hv h0
    constructor <;>
      simp [renderTextBranch, renderHeadingText, resolveValueOpt, jsDisplay, hv, h0,
        jsTruthy]

/-- C10 witness: a literal 0 value, a literal false value, a literal empty
string and an absent value all render as the empty string. -/
theorem C10_falsy_renders_empty_witness :
    renderTextBranch (Json.obj []) [("value", Json.num 0)] = "" ∧
    renderTextBranch (Json.obj []) [("value", Json.bool false)] = "" ∧
    renderHeadingText (Json.obj []) [("value", Json.str "")] = "" ∧
    renderTextBranch (Json.obj []) [] = "" := by
  refine ⟨?_, ?_, ?_, ?_⟩
  · exact ((C10_falsy_renders_empty (Json.obj []) [("value", Json.num 0)]).2.2
      (Json.num 0) rfl rfl).1
  · exact ((C10_falsy_renders_empty (Json.obj []) [("value", Json.bool false)]).2.1
      (Json.bool false) rfl rfl).1
  · exact ((C10_falsy_renders_empty (Json.obj []) [("value", Json.str "")]).2.1
      (Json.str "") rfl rfl).2
  · exact ((C10_falsy_renders_empty (Json.obj []) []).1 rfl).1

/-- A concrete tabs node in children mode with two triggers and two panels
and no `defaultValue` property. -/
def tabsChildrenEx : List Component :=
  [.mk "ta" "tab-trigger" [("value", Json.str "a"), ("label", Json.str "A")] [],
   .mk "ca" "tab-content" [("value", Json.str "a")] [],
   .mk "tb" "tab-trigger" [("value", Json.str "b"), ("label", Json.str "B")] [],
   .mk "cb" "tab-content" [("value", Json.str "b")] []]

/-- C6 counterexample: a children-mode tabs node with panels `a` and `b` and
no `defaultValue` hands the widget the selected value `""` — not the first
tab `a` — and zero panels are visible, not exactly one. -/
theorem C6_counterexample :
    initialSelected (renderTabs (Json.obj []) [] none tabsChildrenEx) = some "" ∧
    (some "" : Option String) ≠ some "a" ∧
    visiblePanels (renderTabs (Json.obj []) [] none tabsChildrenEx) = [] :=
  ⟨rfl, by decide, rfl⟩

/-- C6 amended: in the literal `tabs`-array mode the initially selected
value is the resolved display-converted `defaultValue` when nonempty and
otherwise the first tab's value, and when exactly one tab carries the
selected value exactly one panel is visible; in children mode the initially
selected value is the resolved `defaultValue` with NO first-tab fallback, so
an absent `defaultValue` selects the empty value and a panel is visible only
when its value equals it. -/
theorem C6_tabs_initial_selection (M : Json) (props : List (String × Json))
    (children : List Component) :
    (∀ ts : List TabDef, ts ≠ [] →
       jsDisplay (resolveValueOpt M (props.lookup "defaultValue")) ≠ "" →
       initialSelected (renderTabs M props (some ts) children)
         = some (jsDisplay (resolveValueOpt M (props.lookup "defaultValue")))) ∧
    (∀ ts t0, ts.head? = some t0 →
       jsDisplay (resolveValueOpt M (props.lookup "defaultValue")) = "" →
       initialSelected (renderTabs M props (some ts) children) = some t0.value) ∧
    (children ≠ [] →
       initialSelected (renderTabs M props none children)
         = some (jsDisplay (resolveValueOpt M (props.lookup "defaultValue")))) ∧
    (∀ ts : List TabDef, ts ≠ [] → ∀ sel,
       initialSelected (renderTabs M props (some ts) children) = some sel →
       ts.countP (fun t => t.value == sel) = 1 →
       (visiblePanels (renderTabs M props (some ts) children)).length = 1) := by
  refine ⟨?_, ?_, ?_, ?_⟩
  · intro ts hne hdv
    have hlen : 0 < ts.length := List.length_pos.mpr hne
    simp [renderTabs, initialSelected, hlen, hdv]
  · intro ts t0 hh hdv
    have hne : ts ≠ [] := by
      intro h
      rw [h] at hh
      exact Option.noConfusion hh
    have hlen : 0 < ts.length := List.length_pos.mpr hne
    by_cases h0 : t0.value = ""
    · simp [renderTabs, initialSelected, hlen, hdv, hh, h0]
    · simp [renderTabs, initialSelected, hlen, hdv, hh, h0]
  · intro hne
    have hlen : 0 < children.length := List.length_pos.mpr hne
    simp [renderTabs, initialSelected, hlen]
  · intro ts hne sel hsel hcount
    have hlen : 0 < ts.length := List.length_pos.mpr hne
    simp only [renderTabs, if_pos hlen, initialSelected, Option.some.injEq] at hsel
    simp only [renderTabs, if_pos hlen, visiblePanels]
    rw [hsel, List.length_map, ← List.countP_eq_length_filter, hcount]

/-- C6 witness: a two-tab literal array with `defaultValue` `b` starts at
`b`; with no `defaultValue` it starts at the first tab `a` and exactly one
panel is visible; a children-mode node with no `defaultValue` starts at the
empty value. -/
theorem C6_tabs_initial_selection_witness :
    initialSelected (renderTabs (Json.obj [])
        [("defaultValue", Json.str "b")]
        (some [⟨"a", "A", none⟩, ⟨"b", "B", none⟩]) []) = some "b" ∧
    initialSelected (renderTabs (Json.obj []) []
        (some [⟨"a", "A", none⟩, ⟨"b", "B", none⟩]) []) = some "a" ∧
    (visiblePanels (renderTabs (Json.obj []) []
        (some [⟨"a", "A", none⟩, ⟨"b", "B", none⟩]) [])).length = 1 ∧
    initialSelected (renderTabs (Json.obj []) [] none tabsChildrenEx)
      = some "" := by
  refine ⟨?_, ?_, ?_, ?_⟩
  · exact (C6_tabs_initial_selection (Json.obj [])
      [("defaultValue", Json.str "b")] []).1
      [⟨"a", "A", none⟩, ⟨"b", "B", none⟩] (by decide) (by decide)
  · exact (C6_tabs_initial_selection (Json.obj []) [] []).2.1
      [⟨"a", "A", none⟩, ⟨"b", "B", none⟩] ⟨"a", "A", none⟩ rfl rfl
  · exact (C6_tabs_initial_selection (Json.obj []) [] []).2.2.2
      [⟨"a", "A", none⟩, ⟨"b", "B", none⟩] (by decide) "a" rfl (by decide)
  · exact (C6_tabs_initial_selection (Json.obj []) [] tabsChildrenEx).2.2.1
      (by simp [tabsChildrenEx])

end A2UI
